import Mathlib

/-!
Shallow embedding of the fe2o3-amqp AMQP 1.0 engine, covering the
connection engine (max-frame-size negotiation, heartbeats, frame routing),
the transport (frame decoding, protocol-header negotiation), the
transaction coordinator (declare/discharge), and the sender link
(attach handling).  Definitions are translated from the Rust sources;
where a module of the repository is not available, the definition is
modelled from the specification and marked as such in its doc comment.
-/

/-- Connection lifecycle states.  The variants referenced by the sources
(`Start`, `HeaderSent`, `HeaderReceived`, `HeaderExchange`, `Opened`,
`CloseSent`, `End`) are taken from `connection/engine.rs` and
`transport/mod.rs`; the remaining variants follow the state table of the
specification (Start, HeaderSent/HeaderReceived/HeaderExchange,
OpenPipe/OpenSent, OpenReceived, Opened, CloseSent, CloseReceived, End). -/
inductive ConnectionState where
  | start
  | headerSent
  | headerReceived
  | headerExchange
  | openPipe
  | openSent
  | openReceived
  | opened
  | closeSent
  | closeReceived
  | end_
  deriving DecidableEq, Repr

/-- AMQP-level error conditions, from the `AmqpError` taxonomy
(`fe2o3-amqp-types::definitions::AmqpError`; variants as listed by the
specification and used throughout the sources). -/
inductive AmqpError where
  | decodeError
  | frameSizeTooSmall
  | illegalState
  | notAllowed
  | notFound
  | notImplemented
  | invalidField
  | internalError
  | resourceLimitExceeded
  | preconditionFailed
  deriving DecidableEq, Repr

/-- Connection-level error conditions, from
`fe2o3-amqp-types/src/definitions/conn_error.rs`. -/
inductive ConnectionError where
  | connectionForced
  | framingError
  | redirect
  deriving DecidableEq, Repr

/-- Session-level error conditions (specification error taxonomy). -/
inductive SessionError where
  | windowViolation
  | errantLink
  | handleInUse
  | unattachedHandle
  deriving DecidableEq, Repr

/-- Link-level error conditions (specification error taxonomy). -/
inductive LinkError where
  | detachForced
  | transferLimitExceeded
  | messageSizeExceeded
  | redirect
  | stolen
  deriving DecidableEq, Repr

/-- Transaction error conditions (specification error taxonomy,
`fe2o3-amqp-types::transaction::TransactionError`). -/
inductive TransactionError where
  | unknownId
  | transactionRollback
  | transactionTimeout
  deriving DecidableEq, Repr

/-- The symbolic error condition carried by a `definitions::Error`
(`ErrorCondition` in the types crate): one of the five taxonomies. -/
inductive ErrorCondition where
  | amqp (e : AmqpError)
  | conn (e : ConnectionError)
  | session (e : SessionError)
  | link (e : LinkError)
  | txn (e : TransactionError)
  deriving DecidableEq, Repr

/-- The AMQP `Error` composite (`definitions::Error::new(condition,
description, info)`); the `info` field is `None` at every call site
embedded here and is omitted. -/
structure ErrorDef where
  condition : ErrorCondition
  description : Option String
  deriving DecidableEq, Repr

/-- The error type shared by the transport and the connection engine
(`transport::Error` converted into the engine's error type).  The
`amqpCond` variant corresponds to `Error::amqp_error(condition,
description)` and to errors built from an `AmqpError` via `From`. -/
inductive EngineError where
  | ioErr
  | idleTimeout
  | amqpCond (condition : ErrorCondition) (description : Option String)
  deriving DecidableEq, Repr

/-- Outcome of one iteration of an event loop (`util::Running`). -/
inductive Running where
  | cont
  | stop
  deriving DecidableEq, Repr

/- ------------------------------------------------------------------ -/
/- Sender link (`src/fe2o3-amqp/src/link/sender_link.rs`)             -/
/- ------------------------------------------------------------------ -/

/-- The fields of the `Attach` performative read by
`SenderLink::on_incoming_attach`: `handle`, `target`, `max_message_size`.
Handles and targets are abstracted to numeric identifiers. -/
structure Attach where
  handle : Nat
  target : Option Nat
  maxMessageSize : Option Nat
  deriving DecidableEq, Repr

/-- The fields of `SenderLink` touched by `on_incoming_attach`.
`maxMessageSize = 0` means the max size is not set (comment in the
source). -/
structure SenderLink where
  inputHandle : Option Nat
  target : Option Nat
  maxMessageSize : Nat
  deriving DecidableEq, Repr

/-- Rust `SenderLink::on_incoming_attach`: records the remote handle, adopts
the remote target, and lowers `max_message_size` to the remote's declared
value (absent treated as 0) when that value is strictly smaller. -/
def SenderLink.onIncomingAttach (l : SenderLink) (attach : Attach) : SenderLink :=
  let l1 : SenderLink :=
    { l with inputHandle := some attach.handle, target := attach.target }
  let remoteMaxMsgSize := attach.maxMessageSize.getD 0
  if remoteMaxMsgSize < l1.maxMessageSize then
    { l1 with maxMessageSize := remoteMaxMsgSize }
  else
    l1

/- ------------------------------------------------------------------ -/
/- Heartbeat and connection engine (`connection/engine.rs`)           -/
/- ------------------------------------------------------------------ -/

/-- Modelled from the spec: `connection/heartbeat.rs` is not among the
available sources.  The specification describes an optional timer held
for heartbeat generation; `HeartBeat::never()` holds no timer and
`HeartBeat::new(period)` holds a timer that fires with the given period
(milliseconds). -/
inductive HeartBeat where
  | never
  | timer (periodMillis : Nat)
  deriving DecidableEq, Repr

/-- Rust `HeartBeat::new(period)`. -/
def HeartBeat.new (periodMillis : Nat) : HeartBeat :=
  HeartBeat.timer periodMillis

/-- The fields of the remote/local `Open` performative read by the
engine: `max_frame_size` (u32) and `idle_time_out` (optional
milliseconds). -/
structure Open where
  maxFrameSize : Nat
  idleTimeOut : Option Nat
  deriving DecidableEq, Repr

/-- The connection endpoint state used by the engine
(`endpoint::Connection` implementor): local state, the local `Open`, the
remote `Open` once received, and the incoming-channel → session mailbox
table (`session_tx_by_incoming_channel`); sessions are abstracted to
numeric mailbox identifiers. -/
structure Connection where
  localState : ConnectionState
  localOpen : Open
  remoteOpen : Option Open
  sessionsByIncomingChannel : List (Nat × Nat)
  deriving DecidableEq, Repr

/-- Rust `Connection::session_tx_by_incoming_channel`. -/
def Connection.sessionTxByIncomingChannel (c : Connection) (channel : Nat) : Option Nat :=
  c.sessionsByIncomingChannel.lookup channel

/-- Modelled from the spec: the `Connection::on_incoming_open`
implementation (`connection/mod.rs`) is not among the available sources.
Per the specification's lifecycle it records the remote `Open` and
advances the local state (OpenSent → Opened, HeaderExchange →
OpenReceived); it does not change the locally declared `Open`. -/
def Connection.onIncomingOpen (c : Connection) (remote : Open) : Connection :=
  { c with
    remoteOpen := some remote
    localState :=
      match c.localState with
      | .openSent => .opened
      | .headerExchange => .openReceived
      | s => s }

/-- Modelled from the spec: `Connection::on_incoming_begin` is not among
the available sources.  A remote Begin chooses the local
incoming-channel ↔ session binding. -/
def Connection.onIncomingBegin (c : Connection) (channel : Nat) (sessionTx : Nat) :
    Connection :=
  { c with
    sessionsByIncomingChannel := (channel, sessionTx) :: c.sessionsByIncomingChannel }

/-- Modelled from the spec: `Connection::on_incoming_end` is not among
the available sources.  A remote End removes the incoming-channel
binding. -/
def Connection.onIncomingEnd (c : Connection) (channel : Nat) : Connection :=
  { c with
    sessionsByIncomingChannel :=
      c.sessionsByIncomingChannel.filter (fun p => p.1 ≠ channel) }

/-- Modelled from the spec: `Connection::on_incoming_close` is not among
the available sources.  Per the lifecycle, a remote Close completes the
close handshake (CloseSent → End) or begins it (otherwise →
CloseReceived). -/
def Connection.onIncomingClose (c : Connection) : Connection :=
  { c with
    localState :=
      match c.localState with
      | .closeSent => .end_
      | _ => .closeReceived }

/-- Frame bodies dispatched by the engine (`frames::amqp::FrameBody`;
the variant list is exactly the exhaustive match in
`ConnectionEngine::on_incoming`).  Performatives other than `Open` and
`Close` are abstracted to numeric payloads. -/
inductive FrameBody where
  | open_ (remote : Open)
  | begin_ (b : Nat)
  | attach (a : Nat)
  | flow (f : Nat)
  | transfer (performative : Nat) (payload : Nat)
  | disposition (d : Nat)
  | detach (d : Nat)
  | end_ (e : Nat)
  | close (err : Option ErrorDef)
  | empty
  deriving DecidableEq, Repr

/-- An AMQP frame as handled by the engine: channel plus body. -/
structure Frame where
  channel : Nat
  body : FrameBody
  deriving DecidableEq, Repr

/-- Rust `Frame::empty()`: the heartbeat frame (size 8, empty body). -/
def Frame.empty : Frame :=
  { channel := 0, body := FrameBody.empty }

/-- Session frame bodies (`session::SessionFrameBody`; variants as
constructed and matched in `connection/engine.rs`). -/
inductive SessionFrameBody where
  | begin_ (b : Nat)
  | attach (a : Nat)
  | flow (f : Nat)
  | transfer (performative : Nat) (payload : Nat)
  | disposition (d : Nat)
  | detach (d : Nat)
  | end_ (e : Nat)
  deriving DecidableEq, Repr

/-- A session frame (`SessionFrame::new(channel, body)`). -/
structure SessionFrame where
  channel : Nat
  body : SessionFrameBody
  deriving DecidableEq, Repr

/-- The state of `ConnectionEngine` relevant to the embedded claims:
the transport's current maximum frame length, the connection endpoint,
and the heartbeat timer. -/
structure ConnectionEngine where
  transportMaxFrameLength : Nat
  connection : Connection
  heartbeat : HeartBeat
  deriving DecidableEq, Repr

/-- The block shared verbatim by `ConnectionEngine::open` and the
`FrameBody::Open` arm of `ConnectionEngine::on_incoming`: captures the
remote `max_frame_size` and `idle_time_out`, calls
`connection.on_incoming_open`, installs
`min(local_open.max_frame_size, remote_max_frame_size)` as the
transport's maximum frame length, and replaces the heartbeat with a
timer of the remote idle timeout (in milliseconds) or `never`. -/
def ConnectionEngine.handleRemoteOpen (e : ConnectionEngine) (remote : Open) :
    ConnectionEngine :=
  let remoteMaxFrameSize := remote.maxFrameSize
  let remoteIdleTimeout := remote.idleTimeOut
  let conn := e.connection.onIncomingOpen remote
  let maxFrameSize := min conn.localOpen.maxFrameSize remoteMaxFrameSize
  let heartbeat :=
    match remoteIdleTimeout with
    | some millis => HeartBeat.new millis
    | none => HeartBeat.never
  { transportMaxFrameLength := maxFrameSize
    connection := conn
    heartbeat := heartbeat }

/-- The tail of `ConnectionEngine::open` after the local Open is sent:
the first incoming frame must be an `Open` (anything else is
`amqp:illegal-state`), and is then handled by the shared
remote-open block. -/
def ConnectionEngine.openRecvOpen (e : ConnectionEngine) (frame : Frame) :
    Except EngineError ConnectionEngine :=
  match frame.body with
  | .open_ remote => .ok (e.handleRemoteOpen remote)
  | _ => .error (.amqpCond (.amqp .illegalState) none)

/-- Rust `ConnectionEngine::forward_to_session`: a session frame is forwarded
only while the local state is `Opened` (otherwise `amqp:illegal-state`),
and only to a session registered under the incoming channel (otherwise
`amqp:not-found`).  The successful result is the receiving session's
mailbox identifier together with the forwarded frame. -/
def ConnectionEngine.forwardToSession (e : ConnectionEngine) (channel : Nat)
    (frame : SessionFrame) : Except EngineError (Nat × SessionFrame) :=
  match e.connection.localState with
  | .opened =>
    match e.connection.sessionTxByIncomingChannel channel with
    | some tx => .ok (tx, frame)
    | none => .error (.amqpCond (.amqp .notFound) none)
  | _ => .error (.amqpCond (.amqp .illegalState) none)

/-- Rust `ConnectionEngine::on_incoming`: dispatches one incoming frame.
On success it returns the updated engine, the session frame forwarded
(if the body was a session frame), and whether the event loop continues
(`Stop` once the local state is `End`). -/
def ConnectionEngine.onIncoming (e : ConnectionEngine) (frame : Frame) :
    Except EngineError (ConnectionEngine × Option (Nat × SessionFrame) × Running) :=
  let step : Except EngineError (ConnectionEngine × Option (Nat × SessionFrame)) :=
    match frame.body with
    | .open_ remote => .ok (e.handleRemoteOpen remote, none)
    | .begin_ b =>
      .ok ({ e with connection := e.connection.onIncomingBegin frame.channel b }, none)
    | .attach a =>
      (e.forwardToSession frame.channel ⟨frame.channel, .attach a⟩).map
        (fun fwd => (e, some fwd))
    | .flow f =>
      (e.forwardToSession frame.channel ⟨frame.channel, .flow f⟩).map
        (fun fwd => (e, some fwd))
    | .transfer performative payload =>
      (e.forwardToSession frame.channel ⟨frame.channel, .transfer performative payload⟩).map
        (fun fwd => (e, some fwd))
    | .disposition d =>
      (e.forwardToSession frame.channel ⟨frame.channel, .disposition d⟩).map
        (fun fwd => (e, some fwd))
    | .detach d =>
      (e.forwardToSession frame.channel ⟨frame.channel, .detach d⟩).map
        (fun fwd => (e, some fwd))
    | .end_ _ =>
      .ok ({ e with connection := e.connection.onIncomingEnd frame.channel }, none)
    | .close _ =>
      .ok ({ e with connection := e.connection.onIncomingClose }, none)
    | .empty => .ok (e, none)
  step.map fun (e1, fwd) =>
    (e1, fwd, if e1.connection.localState = .end_ then Running.stop else Running.cont)

/-- Whether a frame body is forwarded to a session by the engine
(Attach, Flow, Transfer, Disposition, or Detach). -/
def FrameBody.isSessionFrame : FrameBody → Bool
  | .attach _ | .flow _ | .transfer _ _ | .disposition _ | .detach _ => true
  | _ => false

/-- Rust `ConnectionEngine::on_heartbeat`: in `Start` or `CloseSent` nothing
is sent and the loop continues; in `End` the loop stops; in every other
state an empty frame is sent and the loop continues.  The first
component is the frame written to the transport, if any. -/
def ConnectionEngine.onHeartBeat (e : ConnectionEngine) : Option Frame × Running :=
  match e.connection.localState with
  | .start | .closeSent => (none, Running.cont)
  | .end_ => (none, Running.stop)
  | _ => (some Frame.empty, Running.cont)

/- ------------------------------------------------------------------ -/
/- Transport frame decoding (`transport/mod.rs`, Stream impl)         -/
/- ------------------------------------------------------------------ -/

/-- Big-endian 32-bit value from the first four bytes of a wire frame
(the frame's declared total size, including the 4-byte size field). -/
def be32 (wire : List Nat) : Nat :=
  (wire.headD 0 % 256) * 16777216 + ((wire.drop 1).headD 0 % 256) * 65536 +
    ((wire.drop 2).headD 0 % 256) * 256 + (wire.drop 3).headD 0 % 256

/-- Errors from the length-delimited layer below the frame codec:
either the dedicated `LengthDelimitedCodecError` (raised exactly when
the declared length exceeds the configured `max_frame_length`), or any
other I/O error. -/
inductive FramedError where
  | lengthDelimitedCodecError
  | otherIo
  deriving DecidableEq, Repr

/-- The length-delimited layer configured by `Transport::bind`
(4-byte big-endian length field counting itself, i.e. length
adjustment −4, maximum frame length checked against the raw field
value): yields the frame bytes after the size field, or
`lengthDelimitedCodecError` when the declared size exceeds the
configured maximum, or an ordinary I/O error when the −4 adjustment
underflows. -/
def lengthDelimitedDecode (maxFrameLength : Nat) (wire : List Nat) :
    Except FramedError (List Nat) :=
  let n := be32 wire
  if maxFrameLength < n then .error .lengthDelimitedCodecError
  else if n < 4 then .error .otherIo
  else .ok ((wire.drop 4).take (n - 4))

/-- The result of decoding one frame header: data offset, frame type,
channel, and the remaining body bytes (performative bytes left
unparsed). -/
structure RawFrame where
  doff : Nat
  ftype : Nat
  channel : Nat
  bodyBytes : List Nat
  deriving DecidableEq, Repr

/-- Modelled from the spec: `frames::amqp::FrameCodec::decode` is not
among the available sources.  Its input is the frame bytes after the
size field; the original declared size is the length of that input plus
4.  Per the specification's framing rules and failure modes: a frame
size below 8 fails with `amqp:frame-size-too-small`; a data offset
below 2 and an unknown frame type code are decode failures; otherwise
the extended header is skipped and the body returned. -/
def frameCodecDecode (src : List Nat) : Except EngineError RawFrame :=
  if src.length + 4 < 8 then
    .error (.amqpCond (.amqp .frameSizeTooSmall) none)
  else
    let doff := src.headD 0
    let ftype := (src.drop 1).headD 0
    let channel := ((src.drop 2).headD 0) * 256 + (src.drop 3).headD 0
    if doff < 2 then .error (.amqpCond (.amqp .decodeError) none)
    else if ftype ≠ 0 then .error (.amqpCond (.amqp .notImplemented) none)
    else .ok { doff := doff, ftype := ftype, channel := channel,
               bodyBytes := src.drop (doff * 4 - 4) }

/-- The downcast test in `poll_next`:
`(&err as &dyn Any).is::<LengthDelimitedCodecError>()`.  The value
tested is the framed layer's `std::io::Error` itself (the stream item's
error type), never a `LengthDelimitedCodecError`, so by Rust's `Any`
semantics the test is false for every error the layer can produce and
the guarded mapping to `amqp:frame-size-too-small` is dead code. -/
def anyIsLengthDelimitedCodecError (_ : FramedError) : Bool :=
  false

/-- The receive path of `impl Stream for Transport<Io, amqp::Frame>`
(`poll_next`) for one arriving frame: an error from the
length-delimited layer is mapped to `amqp:frame-size-too-small` when
the `Any` downcast recognizes a `LengthDelimitedCodecError` (which it
never does, see `anyIsLengthDelimitedCodecError`) and otherwise passed
through as an I/O error; successfully framed bytes are handed to the
frame codec. -/
def transportRecvAmqp (maxFrameLength : Nat) (wire : List Nat) :
    Except EngineError RawFrame :=
  match lengthDelimitedDecode maxFrameLength wire with
  | .error err =>
    if anyIsLengthDelimitedCodecError err then
      .error (.amqpCond (.amqp .frameSizeTooSmall) none)
    else
      .error .ioErr
  | .ok src => frameCodecDecode src

/- ------------------------------------------------------------------ -/
/- Protocol-header negotiation (`transport/mod.rs`)                   -/
/- ------------------------------------------------------------------ -/

/-- Protocol identifiers of the AMQP protocol header (0x00 AMQP,
0x01 AMQP over TLS, 0x03 AMQP over SASL). -/
inductive ProtoId where
  | amqp
  | tls
  | sasl
  deriving DecidableEq, Repr

/-- The 8-byte protocol header `AMQP <proto-id> <major> <minor>
<revision>`. -/
structure ProtocolHeader where
  id : ProtoId
  major : Nat
  minor : Nat
  revision : Nat
  deriving DecidableEq, Repr

/-- The numeric code of a protocol identifier. -/
def ProtoId.code : ProtoId → Nat
  | .amqp => 0
  | .tls => 1
  | .sasl => 3

/-- The wire form of a protocol header: ASCII `AMQP` followed by
proto-id, major, minor, revision. -/
def ProtocolHeader.toBytes (h : ProtocolHeader) : List Nat :=
  [65, 77, 81, 80, h.id.code, h.major, h.minor, h.revision]

/-- Rust `ProtocolHeader::amqp()`: the plain AMQP 1.0.0 header. -/
def ProtocolHeader.amqpHeader : ProtocolHeader :=
  { id := .amqp, major := 1, minor := 0, revision := 0 }

/-- Modelled from the spec: `transport/protocol_header.rs`
(`ProtocolHeader::try_from([u8; 8])`) is not among the available
sources.  Per the specification's header layout, exactly 8 bytes
beginning with ASCII `AMQP` and carrying a known proto-id (0x00, 0x01,
or 0x03) parse as a header; anything else is rejected. -/
def ProtocolHeader.tryFromBytes (b : List Nat) : Except Unit ProtocolHeader :=
  match b with
  | [a, m, q, p, pid, maj, mn, rev] =>
    if a = 65 ∧ m = 77 ∧ q = 81 ∧ p = 80 then
      match pid with
      | 0 => .ok { id := .amqp, major := maj, minor := mn, revision := rev }
      | 1 => .ok { id := .tls, major := maj, minor := mn, revision := rev }
      | 3 => .ok { id := .sasl, major := maj, minor := mn, revision := rev }
      | _ => .error ()
    else .error ()
  | _ => .error ()

/-- Rust `send_proto_header`: writes the 8-byte header and advances the
state (Start → HeaderSent, HeaderReceived → HeaderExchange; any other
state is `amqp:illegal-state`). -/
def sendProtoHeader (localState : ConnectionState) :
    Except EngineError ConnectionState :=
  match localState with
  | .start => .ok .headerSent
  | .headerReceived => .ok .headerExchange
  | _ => .error (.amqpCond (.amqp .illegalState) none)

/-- Rust `read_and_compare_proto_header`: parses the 8 inbound bytes
(failure: `amqp:not-implemented`, state unchanged) and compares the
parsed header with the expected one; a mismatch sets the local state to
`End` and fails with `amqp:not-implemented`. -/
def readAndCompareProtoHeader (localState : ConnectionState)
    (protoHeader : ProtocolHeader) (inbound : List Nat) :
    ConnectionState × Except EngineError ProtocolHeader :=
  match ProtocolHeader.tryFromBytes inbound with
  | .error _ =>
    (localState,
      .error (.amqpCond (.amqp .notImplemented) (some "invalid protocol header")))
  | .ok incomingHeader =>
    if incomingHeader ≠ protoHeader then
      (ConnectionState.end_,
        .error (.amqpCond (.amqp .notImplemented) (some "unexpected protocol header")))
    else
      (localState, .ok incomingHeader)

/-- Rust `recv_proto_header`: reads and compares in state Start (success →
HeaderReceived) or HeaderSent (success → HeaderExchange); any other
state is `amqp:illegal-state`. -/
def recvProtoHeader (localState : ConnectionState) (protoHeader : ProtocolHeader)
    (inbound : List Nat) : ConnectionState × Except EngineError ProtocolHeader :=
  match localState with
  | .start =>
    match readAndCompareProtoHeader localState protoHeader inbound with
    | (s, .error e) => (s, .error e)
    | (_, .ok h) => (ConnectionState.headerReceived, .ok h)
  | .headerSent =>
    match readAndCompareProtoHeader localState protoHeader inbound with
    | (s, .error e) => (s, .error e)
    | (_, .ok h) => (ConnectionState.headerExchange, .ok h)
  | _ => (localState, .error (.amqpCond (.amqp .illegalState) none))

/-- Rust `Transport::negotiate`: sends the local header then receives and
compares the peer's; `inbound` is the 8 bytes read from the wire. -/
def negotiate (localState : ConnectionState) (protoHeader : ProtocolHeader)
    (inbound : List Nat) : ConnectionState × Except EngineError ProtocolHeader :=
  match sendProtoHeader localState with
  | .error e => (localState, .error e)
  | .ok s1 => recvProtoHeader s1 protoHeader inbound

/- ------------------------------------------------------------------ -/
/- Transaction coordinator (`transaction/coordinator.rs`)             -/
/- ------------------------------------------------------------------ -/

/-- The `Declare` body of a control-link message: an optional
global-id (abstracted to a numeric identifier). -/
structure Declare where
  globalId : Option Nat
  deriving DecidableEq, Repr

/-- The `Discharge` body of a control-link message: the transaction id
(abstracted to a numeric identifier) and the optional fail flag. -/
structure Discharge where
  txnId : Nat
  fail : Option Bool
  deriving DecidableEq, Repr

/-- The body of a control-link message
(`transaction::control_link_frame::ControlMessageBody`): either a
Declare or a Discharge, as matched exhaustively by
`TxnCoordinator::on_delivery`. -/
inductive ControlMessageBody where
  | declare (d : Declare)
  | discharge (d : Discharge)
  deriving DecidableEq, Repr

/-- The message body variants matched by `TxnCoordinator::on_delivery`
(`fe2o3_amqp_types::messaging::Body`): a single amqp-value section, or
a sequence or data section (contents abstracted). -/
inductive ControlBody where
  | value (v : ControlMessageBody)
  | sequence (s : Nat)
  | data (d : Nat)
  deriving DecidableEq, Repr

/-- A delivery received on the control link: delivery id, delivery tag,
and body. -/
structure Delivery where
  deliveryId : Nat
  deliveryTag : List Nat
  body : ControlBody
  deriving DecidableEq, Repr

/-- The `Declared` outcome carrying the allocated transaction id. -/
structure Declared where
  txnId : Nat
  deriving DecidableEq, Repr

/-- Terminal delivery states constructed by the coordinator
(`messaging::DeliveryState`); the variants not produced on these paths
are included for completeness of the delivery-state universe. -/
inductive DeliveryState where
  | declared (d : Declared)
  | accepted
  | rejected (error : Option ErrorDef)
  | released
  | modified
  | received
  deriving DecidableEq, Repr

/-- Rust `transaction::CoordinatorError`, as matched exhaustively by
`TxnCoordinator::handle_delivery_result`. -/
inductive CoordinatorError where
  | globalIdNotImplemented
  | invalidSessionState
  | allocTxnIdNotImplemented
  | transactionError (e : TransactionError)
  deriving DecidableEq, Repr

/-- Rust `SuccessfulOutcome` from `transaction/coordinator.rs`. -/
inductive SuccessfulOutcome where
  | declared (d : Declared)
  | accepted
  deriving DecidableEq, Repr

/-- Rust `From<SuccessfulOutcome> for DeliveryState`. -/
def SuccessfulOutcome.toDeliveryState : SuccessfulOutcome → DeliveryState
  | .declared d => .declared d
  | .accepted => .accepted

/-- Modelled from the spec: the transaction manager held by the session
(`transaction::session`, providing `allocate_transaction_id`,
`commit_transaction` and `rollback_transaction`) is not among the
available sources.  It tracks the next fresh transaction id, the ids of
open transactions, and the ids already committed or rolled back. -/
structure TxnManager where
  nextId : Nat
  active : List Nat
  committed : List Nat
  rolledBack : List Nat
  deriving DecidableEq, Repr

/-- Modelled from the spec: `allocate_transaction_id` allocates a fresh
transaction id and opens it. -/
def allocateTransactionId (m : TxnManager) : TxnManager × Nat :=
  ({ m with nextId := m.nextId + 1, active := m.nextId :: m.active }, m.nextId)

/-- Modelled from the spec: `commit_transaction` commits an open
transaction (after which its id is invalid); discharging an unknown id
fails with `transaction:unknown-id`. -/
def commitTransaction (m : TxnManager) (txnId : Nat) :
    TxnManager × Except CoordinatorError Unit :=
  if m.active.contains txnId then
    ({ m with active := m.active.erase txnId, committed := txnId :: m.committed },
      .ok ())
  else
    (m, .error (.transactionError .unknownId))

/-- Modelled from the spec: `rollback_transaction` rolls back an open
transaction (after which its id is invalid); discharging an unknown id
fails with `transaction:unknown-id`. -/
def rollbackTransaction (m : TxnManager) (txnId : Nat) :
    TxnManager × Except CoordinatorError Unit :=
  if m.active.contains txnId then
    ({ m with active := m.active.erase txnId, rolledBack := txnId :: m.rolledBack },
      .ok ())
  else
    (m, .error (.transactionError .unknownId))

/-- Rust `TxnCoordinator::on_declare`: a Declare carrying a global-id fails
with `GlobalIdNotImplemented`; otherwise a fresh transaction id is
allocated and returned as `Declared`. -/
def TxnCoordinator.onDeclare (m : TxnManager) (declare : Declare) :
    TxnManager × Except CoordinatorError Declared :=
  match declare.globalId with
  | some _ => (m, .error .globalIdNotImplemented)
  | none =>
    let (m1, txnId) := allocateTransactionId m
    (m1, .ok { txnId := txnId })

/-- Rust `TxnCoordinator::on_discharge`: `fail = Some(true)` rolls the
transaction back; `Some(false)` and `None` alike commit it (the fail
field is treated as false if unset); success is the `Accepted`
outcome. -/
def TxnCoordinator.onDischarge (m : TxnManager) (discharge : Discharge) :
    TxnManager × Except CoordinatorError Unit :=
  match discharge.fail with
  | some true => rollbackTransaction m discharge.txnId
  | some false | none => commitTransaction m discharge.txnId

/-- An observable action taken by the coordinator while handling a
delivery: either a Disposition settling the delivery with a delivery
state, or closing the control link with an optional error. -/
inductive CoordAction where
  | disposed (deliveryId : Nat) (deliveryTag : List Nat) (state : DeliveryState)
  | closedWithError (err : Option ErrorDef)
  deriving DecidableEq, Repr

/-- Rust `TxnCoordinator::reject`: dispositions the delivery as `Rejected`
with a `TransactionError` condition. -/
def TxnCoordinator.reject (deliveryId : Nat) (deliveryTag : List Nat)
    (error : TransactionError) (description : Option String) : CoordAction :=
  CoordAction.disposed deliveryId deliveryTag
    (.rejected (some { condition := .txn error, description := description }))

/-- Rust `TxnCoordinator::handle_delivery_result`: a successful outcome is
dispositioned as is; `GlobalIdNotImplemented` and
`AllocTxnIdNotImplemented` are rejected with `transaction:unknown-id`;
a `TransactionError` is rejected with that condition;
`InvalidSessionState` stops the loop without an action.  (The
disposition itself is modelled as succeeding.) -/
def TxnCoordinator.handleDeliveryResult (deliveryId : Nat) (deliveryTag : List Nat)
    (result : Except CoordinatorError SuccessfulOutcome) :
    Option CoordAction × Running :=
  match result with
  | .ok outcome =>
    (some (.disposed deliveryId deliveryTag outcome.toDeliveryState), Running.cont)
  | .error .globalIdNotImplemented =>
    (some (TxnCoordinator.reject deliveryId deliveryTag .unknownId
      (some "Global transaction ID is not implemented")), Running.cont)
  | .error .invalidSessionState => (none, Running.stop)
  | .error .allocTxnIdNotImplemented =>
    (some (TxnCoordinator.reject deliveryId deliveryTag .unknownId
      (some "Allocation of new transaction ID is not implemented")), Running.cont)
  | .error (.transactionError e) =>
    (some (TxnCoordinator.reject deliveryId deliveryTag e none), Running.cont)

/-- Rust `TxnCoordinator::on_delivery`: a body that is not a single
amqp-value section closes the link with `amqp:decode-error` and stops
the loop, without touching the transaction manager; a Declare or
Discharge value body is processed and its result dispositioned. -/
def TxnCoordinator.onDelivery (m : TxnManager) (delivery : Delivery) :
    TxnManager × Option CoordAction × Running :=
  match delivery.body with
  | .sequence _ | .data _ =>
    (m, some (.closedWithError (some
      { condition := .amqp .decodeError
        description := some "The coordinator is only expecting Declare or Discharge frames" })),
      Running.stop)
  | .value body =>
    match body with
    | .declare declare =>
      let (m1, r) := TxnCoordinator.onDeclare m declare
      let (action, running) :=
        TxnCoordinator.handleDeliveryResult delivery.deliveryId delivery.deliveryTag
          (r.map SuccessfulOutcome.declared)
      (m1, action, running)
    | .discharge discharge =>
      let (m1, r) := TxnCoordinator.onDischarge m discharge
      let (action, running) :=
        TxnCoordinator.handleDeliveryResult delivery.deliveryId delivery.deliveryTag
          (r.map (fun _ => SuccessfulOutcome.accepted))
      (m1, action, running)

/- ------------------------------------------------------------------ -/
/- Theorems                                                           -/
/- ------------------------------------------------------------------ -/

/-- C1: after the remote Open is processed, the transport's maximum
frame length equals the minimum of the locally declared and the remotely
declared max-frame-size, and this holds both on the initial open
exchange (`ConnectionEngine::open`) and when an Open arrives in the
event loop (`ConnectionEngine::on_incoming`). -/
theorem negotiated_max_frame_size_is_min (e : ConnectionEngine) (ch : Nat)
    (remote : Open) :
    (e.handleRemoteOpen remote).transportMaxFrameLength
        = min e.connection.localOpen.maxFrameSize remote.maxFrameSize
  ∧ e.openRecvOpen { channel := ch, body := .open_ remote }
        = .ok (e.handleRemoteOpen remote)
  ∧ (e.onIncoming { channel := ch, body := .open_ remote }).map
        (fun t => t.1.transportMaxFrameLength)
      = .ok (min e.connection.localOpen.maxFrameSize remote.maxFrameSize) :=
  ⟨rfl, rfl, rfl⟩

/-- C2 (failing input): on a remote Open declaring an idle-timeout of
1000 ms, the engine installs a heartbeat timer with the full 1000 ms
period, which differs from half the declared idle-timeout; a remote
Open without an idle-timeout installs no timer. -/
theorem heartbeat_timer_uses_full_idle_timeout :
    (ConnectionEngine.handleRemoteOpen
        { transportMaxFrameLength := 512
          connection :=
            { localState := .openSent
              localOpen := { maxFrameSize := 65536, idleTimeOut := none }
              remoteOpen := none
              sessionsByIncomingChannel := [] }
          heartbeat := .never }
        { maxFrameSize := 65536, idleTimeOut := some 1000 }).heartbeat
      = HeartBeat.timer 1000
  ∧ HeartBeat.timer 1000 ≠ HeartBeat.timer (1000 / 2)
  ∧ (ConnectionEngine.handleRemoteOpen
        { transportMaxFrameLength := 512
          connection :=
            { localState := .openSent
              localOpen := { maxFrameSize := 65536, idleTimeOut := none }
              remoteOpen := none
              sessionsByIncomingChannel := [] }
          heartbeat := .never }
        { maxFrameSize := 65536, idleTimeOut := none }).heartbeat
      = HeartBeat.never := by
  decide

/-- C3 (counterexample): on a heartbeat tick in state `CloseReceived`
— a state other than `Opened` — the engine writes an empty frame to
the transport, contradicting the claim that empty frames are emitted
only while `Opened`. -/
theorem heartbeat_sent_in_close_received :
    (ConnectionEngine.onHeartBeat
        { transportMaxFrameLength := 512
          connection :=
            { localState := .closeReceived
              localOpen := { maxFrameSize := 512, idleTimeOut := none }
              remoteOpen := none
              sessionsByIncomingChannel := [] }
          heartbeat := .timer 1000 }).1 = some Frame.empty
  ∧ ConnectionState.closeReceived ≠ ConnectionState.opened := by
  decide

/-- C3 (amended): on a heartbeat tick an empty frame is written exactly
when the local state is none of `Start`, `CloseSent` and `End` (so in
`Opened`, but also e.g. in `CloseReceived` or `OpenSent`); the loop
stops exactly in `End`. -/
theorem heartbeat_emission_characterization (e : ConnectionEngine) :
    ((e.onHeartBeat).1 = some Frame.empty ↔
        e.connection.localState ≠ .start ∧ e.connection.localState ≠ .closeSent
          ∧ e.connection.localState ≠ .end_)
  ∧ ((e.onHeartBeat).2 = Running.stop ↔ e.connection.localState = .end_) := by
  rcases e with ⟨mfl, ⟨st, lo, ro, se⟩, hb⟩
  cases st <;> simp [ConnectionEngine.onHeartBeat]

/-- C7: a Declare without a global-id allocates a fresh transaction id
and dispositions the delivery with `Declared` carrying that id; a
Declare with a global-id dispositions the delivery as `Rejected` with
condition `transaction:unknown-id`. -/
theorem declare_allocates_or_rejects_global_id (m : TxnManager) (did : Nat)
    (tag : List Nat) (g : Nat) :
    TxnCoordinator.onDelivery m
        { deliveryId := did, deliveryTag := tag
          body := .value (.declare { globalId := none }) }
      = ({ m with nextId := m.nextId + 1, active := m.nextId :: m.active },
          some (.disposed did tag (.declared { txnId := m.nextId })), Running.cont)
  ∧ TxnCoordinator.onDelivery m
        { deliveryId := did, deliveryTag := tag
          body := .value (.declare { globalId := some g }) }
      = (m,
          some (.disposed did tag (.rejected (some
            { condition := .txn .unknownId
              description := some "Global transaction ID is not implemented" }))),
          Running.cont) :=
  ⟨rfl, rfl⟩

/-- C8: a control-link message whose body is a sequence or data section
(not a single amqp-value section) makes the coordinator close the link
with `amqp:decode-error` and stop its event loop, leaving the
transaction state untouched (the message is not processed as Declare or
Discharge). -/
theorem non_value_body_closes_with_decode_error (m : TxnManager) (did : Nat)
    (tag : List Nat) (x : Nat) :
    TxnCoordinator.onDelivery m
        { deliveryId := did, deliveryTag := tag, body := .sequence x }
      = (m, some (.closedWithError (some
          { condition := .amqp .decodeError
            description := some "The coordinator is only expecting Declare or Discharge frames" })),
         Running.stop)
  ∧ TxnCoordinator.onDelivery m
        { deliveryId := did, deliveryTag := tag, body := .data x }
      = (m, some (.closedWithError (some
          { condition := .amqp .decodeError
            description := some "The coordinator is only expecting Declare or Discharge frames" })),
         Running.stop) :=
  ⟨rfl, rfl⟩

/-- C9: a Discharge with an absent fail flag is processed identically to
one with `fail = false` — the transaction is committed and the delivery
dispositioned `Accepted`; only `fail = true` routes to rollback, and the
commit path never touches the rolled-back set. -/
theorem discharge_fail_none_commits (m : TxnManager) (did : Nat)
    (tag : List Nat) (t : Nat) :
    TxnCoordinator.onDelivery m
        { deliveryId := did, deliveryTag := tag
          body := .value (.discharge { txnId := t, fail := none }) }
      = TxnCoordinator.onDelivery m
          { deliveryId := did, deliveryTag := tag
            body := .value (.discharge { txnId := t, fail := some false }) }
  ∧ (m.active.contains t = true →
      TxnCoordinator.onDelivery m
          { deliveryId := did, deliveryTag := tag
            body := .value (.discharge { txnId := t, fail := none }) }
        = ({ m with active := m.active.erase t, committed := t :: m.committed },
            some (.disposed did tag .accepted), Running.cont))
  ∧ TxnCoordinator.onDischarge m { txnId := t, fail := some true }
      = rollbackTransaction m t
  ∧ (TxnCoordinator.onDischarge m { txnId := t, fail := none }).1.rolledBack
      = m.rolledBack := by
  refine ⟨rfl, fun h => ?_, rfl, ?_⟩
  · have hmem : t ∈ m.active := by simpa using h
    simp [TxnCoordinator.onDelivery, TxnCoordinator.onDischarge, commitTransaction, hmem,
      TxnCoordinator.handleDeliveryResult, SuccessfulOutcome.toDeliveryState, Except.map]
  · by_cases hmem : t ∈ m.active <;>
      simp [TxnCoordinator.onDischarge, commitTransaction, hmem]

/-- C9 (witness): with one open transaction 5, discharging it with an
absent fail flag commits it and dispositions the delivery `Accepted`. -/
theorem discharge_fail_none_commits_witness :
    TxnCoordinator.onDelivery { nextId := 6, active := [5], committed := [], rolledBack := [] }
        { deliveryId := 1, deliveryTag := [0]
          body := .value (.discharge { txnId := 5, fail := none }) }
      = ({ nextId := 6, active := ([5] : List Nat).erase 5, committed := [5], rolledBack := [] },
          some (.disposed 1 [0] .accepted), Running.cont) :=
  (discharge_fail_none_commits
    { nextId := 6, active := [5], committed := [], rolledBack := [] } 1 [0] 5).2.1
    (by decide)

/-- C10: after a sender link processes an incoming Attach, its
max-message-size equals the remote's declared value whenever that value
(absent treated as 0) is strictly below the current local value; in
particular an Attach omitting max-message-size resets a nonzero local
limit to 0. -/
theorem sender_max_message_size_lowered (l : SenderLink) (attach : Attach) :
    (attach.maxMessageSize.getD 0 < l.maxMessageSize →
        (l.onIncomingAttach attach).maxMessageSize = attach.maxMessageSize.getD 0)
  ∧ (attach.maxMessageSize = none → l.maxMessageSize ≠ 0 →
        (l.onIncomingAttach attach).maxMessageSize = 0) := by
  constructor
  · intro h
    simp [SenderLink.onIncomingAttach, h]
  · intro hn h0
    simp [SenderLink.onIncomingAttach, hn, Nat.pos_of_ne_zero h0]

/-- C10 (witness): a remote Attach omitting max-message-size resets a
local limit of 100 to 0. -/
theorem sender_max_message_size_lowered_witness :
    (SenderLink.onIncomingAttach
        { inputHandle := none, target := none, maxMessageSize := 100 }
        { handle := 1, target := some 7, maxMessageSize := none }).maxMessageSize = 0 :=
  (sender_max_message_size_lowered
    { inputHandle := none, target := none, maxMessageSize := 100 }
    { handle := 1, target := some 7, maxMessageSize := none }).2 rfl (by decide)

/-- C4 (counterexample): a frame whose declared size (513) exceeds the
negotiated maximum (512) fails with a pass-through I/O error — the
`Any` downcast guarding the `amqp:frame-size-too-small` mapping never
matches the `io::Error` it tests — and not with
`amqp:connection:framing-error` as the claim states. -/
theorem oversized_frame_yields_io_error :
    transportRecvAmqp 512 [0, 0, 2, 1] = .error .ioErr
  ∧ ∀ d : Option String,
      EngineError.ioErr ≠ .amqpCond (.conn .framingError) d := by
  constructor
  · rfl
  · intro d
    simp

/-- C4 (amended): an incoming frame whose declared size is below 8 (yet
covers its own 4-byte size field and is within the negotiated maximum)
fails with `amqp:frame-size-too-small`, while a frame whose declared
size exceeds the negotiated maximum frame size fails with a
pass-through I/O error rather than `amqp:connection:framing-error`:
the downcast guarding `poll_next`'s mapping of the length-delimited
layer's error to `amqp:frame-size-too-small` is always false. -/
theorem frame_decode_error_classification
    (maxFrameLength : Nat) (wire : List Nat) :
    (4 ≤ be32 wire → be32 wire < 8 → be32 wire ≤ maxFrameLength →
        transportRecvAmqp maxFrameLength wire
          = .error (.amqpCond (.amqp .frameSizeTooSmall) none))
  ∧ (maxFrameLength < be32 wire →
        transportRecvAmqp maxFrameLength wire = .error .ioErr) := by
  constructor
  · intro h4 h8 hle
    have hm : ¬ (maxFrameLength < be32 wire) := Nat.not_lt.mpr hle
    have hn4 : ¬ (be32 wire < 4) := Nat.not_lt.mpr h4
    have hlen : (List.take (be32 wire - 4) (List.drop 4 wire)).length + 4 < 8 := by
      have := List.length_take_le (be32 wire - 4) (List.drop 4 wire)
      omega
    simp only [transportRecvAmqp, lengthDelimitedDecode]
    rw [if_neg hm, if_neg hn4]
    show frameCodecDecode (List.take (be32 wire - 4) (List.drop 4 wire)) = _
    simp only [frameCodecDecode]
    rw [if_pos hlen]
  · intro hm
    simp [transportRecvAmqp, lengthDelimitedDecode, hm, anyIsLengthDelimitedCodecError]

/-- C4 (witness): a frame declaring size 6 against a negotiated maximum
of 512 fails with `amqp:frame-size-too-small`, while a frame declaring
size 520 against the same maximum fails with a pass-through I/O
error. -/
theorem frame_decode_error_classification_witness :
    transportRecvAmqp 512 [0, 0, 0, 6, 2, 0]
        = .error (.amqpCond (.amqp .frameSizeTooSmall) none)
  ∧ transportRecvAmqp 512 [0, 0, 2, 8] = .error .ioErr :=
  ⟨(frame_decode_error_classification 512 [0, 0, 0, 6, 2, 0]).1
      (by decide) (by decide) (by decide),
   (frame_decode_error_classification 512 [0, 0, 2, 8]).2 (by decide)⟩

/-- C5: during protocol-header negotiation from `Start`, the local side
writes its 8-byte header; when the 8 bytes read back parse to a header
that differs from the expected one, the local state transitions to
`End` and the negotiation fails with an error. -/
theorem proto_header_mismatch_transitions_to_end (inbound : List Nat)
    (expected incoming : ProtocolHeader)
    (hp : ProtocolHeader.tryFromBytes inbound = .ok incoming)
    (hne : incoming ≠ expected) :
    negotiate .start expected inbound
      = (ConnectionState.end_,
          .error (.amqpCond (.amqp .notImplemented) (some "unexpected protocol header")))
  ∧ (ProtocolHeader.toBytes expected).length = 8 := by
  constructor
  · simp [negotiate, sendProtoHeader, recvProtoHeader, readAndCompareProtoHeader, hp, hne]
  · simp [ProtocolHeader.toBytes]

/-- C5 (witness): answering the local AMQP 1.0.0 header with
`AMQP 0 1 0 1` (revision 1) ends the connection with an error. -/
theorem proto_header_mismatch_witness :
    negotiate .start ProtocolHeader.amqpHeader [65, 77, 81, 80, 0, 1, 0, 1]
      = (ConnectionState.end_,
          .error (.amqpCond (.amqp .notImplemented) (some "unexpected protocol header"))) :=
  (proto_header_mismatch_transitions_to_end [65, 77, 81, 80, 0, 1, 0, 1]
    ProtocolHeader.amqpHeader { id := .amqp, major := 1, minor := 0, revision := 1 }
    rfl (by decide)).1

/-- Helper for C6: forwarding any session frame while the local state
is not `Opened` fails with `amqp:illegal-state`. -/
theorem forwardToSession_not_opened (e : ConnectionEngine) (ch : Nat)
    (f : SessionFrame) (hne : e.connection.localState ≠ .opened) :
    e.forwardToSession ch f = .error (.amqpCond (.amqp .illegalState) none) := by
  cases hst : e.connection.localState
  case opened => exact absurd hst hne
  all_goals simp [ConnectionEngine.forwardToSession, hst]

/-- Helper for C6: forwarding a session frame on a channel with no
registered session, while `Opened`, fails with `amqp:not-found`. -/
theorem forwardToSession_not_found (e : ConnectionEngine) (ch : Nat)
    (f : SessionFrame) (hop : e.connection.localState = .opened)
    (hn : e.connection.sessionTxByIncomingChannel ch = none) :
    e.forwardToSession ch f = .error (.amqpCond (.amqp .notFound) none) := by
  simp [ConnectionEngine.forwardToSession, hop, hn]

/-- C6: an incoming session frame (Attach, Flow, Transfer, Disposition
or Detach) fails with `amqp:illegal-state` when the connection's local
state is not `Opened`, and with `amqp:not-found` when, while `Opened`,
its incoming channel has no registered session. -/
theorem session_frame_illegal_state_or_not_found (e : ConnectionEngine)
    (frame : Frame) (hs : frame.body.isSessionFrame = true) :
    (e.connection.localState ≠ .opened →
        e.onIncoming frame = .error (.amqpCond (.amqp .illegalState) none))
  ∧ (e.connection.localState = .opened →
      e.connection.sessionTxByIncomingChannel frame.channel = none →
        e.onIncoming frame = .error (.amqpCond (.amqp .notFound) none)) := by
  obtain ⟨ch, body⟩ := frame
  constructor
  · intro hne
    have hfwd : ∀ f, e.forwardToSession ch f
        = .error (.amqpCond (.amqp .illegalState) none) :=
      fun f => forwardToSession_not_opened e ch f hne
    cases body
    case open_ r => exact absurd hs (by simp [FrameBody.isSessionFrame])
    case begin_ b => exact absurd hs (by simp [FrameBody.isSessionFrame])
    case end_ x => exact absurd hs (by simp [FrameBody.isSessionFrame])
    case close err => exact absurd hs (by simp [FrameBody.isSessionFrame])
    case empty => exact absurd hs (by simp [FrameBody.isSessionFrame])
    all_goals simp [ConnectionEngine.onIncoming, hfwd, Except.map]
  · intro hop hn
    have hfwd : ∀ f, e.forwardToSession ch f
        = .error (.amqpCond (.amqp .notFound) none) :=
      fun f => forwardToSession_not_found e ch f hop hn
    cases body
    case open_ r => exact absurd hs (by simp [FrameBody.isSessionFrame])
    case begin_ b => exact absurd hs (by simp [FrameBody.isSessionFrame])
    case end_ x => exact absurd hs (by simp [FrameBody.isSessionFrame])
    case close err => exact absurd hs (by simp [FrameBody.isSessionFrame])
    case empty => exact absurd hs (by simp [FrameBody.isSessionFrame])
    all_goals simp [ConnectionEngine.onIncoming, hfwd, Except.map]

/-- C6 (witness): an Attach arriving in state `Start` fails with
`amqp:illegal-state`, and a Flow arriving while `Opened` on a channel
with no session fails with `amqp:not-found`. -/
theorem session_frame_errors_witness :
    ConnectionEngine.onIncoming
        { transportMaxFrameLength := 512
          connection :=
            { localState := .start
              localOpen := { maxFrameSize := 512, idleTimeOut := none }
              remoteOpen := none
              sessionsByIncomingChannel := [] }
          heartbeat := .never }
        { channel := 3, body := .attach 9 }
      = .error (.amqpCond (.amqp .illegalState) none)
  ∧ ConnectionEngine.onIncoming
        { transportMaxFrameLength := 512
          connection :=
            { localState := .opened
              localOpen := { maxFrameSize := 512, idleTimeOut := none }
              remoteOpen := none
              sessionsByIncomingChannel := [] }
          heartbeat := .never }
        { channel := 3, body := .flow 2 }
      = .error (.amqpCond (.amqp .notFound) none) :=
  ⟨(session_frame_illegal_state_or_not_found
      { transportMaxFrameLength := 512
        connection :=
          { localState := .start
            localOpen := { maxFrameSize := 512, idleTimeOut := none }
            remoteOpen := none
            sessionsByIncomingChannel := [] }
        heartbeat := .never }
      { channel := 3, body := .attach 9 } rfl).1 (by decide),
   (session_frame_illegal_state_or_not_found
      { transportMaxFrameLength := 512
        connection :=
          { localState := .opened
            localOpen := { maxFrameSize := 512, idleTimeOut := none }
            remoteOpen := none
            sessionsByIncomingChannel := [] }
        heartbeat := .never }
      { channel := 3, body := .flow 2 } rfl).2 rfl rfl⟩
